import Mathlib

/-!
Shallow embedding of `mibi_bin_tools` (extraction-metadata resolution and
orchestration pipeline, `src/mibi_bin_tools/bin_files.py`), together with
theorems settling the specification claims about it.

Conventions:
* Python floats are modelled as real numbers (`ℝ`) where square roots occur
  (`_mass2tof`), and as rationals (`ℚ`) elsewhere, so that the definitions
  stay executable.
* Python exceptions are modelled with `Except PyErr`.
* numpy arrays indexed `[layer, x, y, channel]` are modelled as lists of
  layers, each layer being a channel-indexed list whose entries stand for the
  whole `[x, y]` image slice of that channel (the code only ever moves such
  slices around wholesale).
-/

deriving instance DecidableEq for Except

namespace MibiBinTools

/-- Python exception classes raised by the modelled code paths. -/
inductive PyErr where
  | keyError (msg : String)
  | valueError (msg : String)
  | typeError (msg : String)
  | indexError (msg : String)
  | fileNotFoundError (msg : String)
deriving DecidableEq, Repr

/-- `bin_files._mass2tof`, element form: converts one m/z value to a time of
flight value, `(mass_gain * np.sqrt(mass) + mass_offset) / time_res`. -/
noncomputable def mass2tof (mass mass_offset mass_gain time_res : ℝ) : ℝ :=
  (mass_gain * Real.sqrt mass + mass_offset) / time_res

/-- numpy `astype(np.uint16)` applied to an (integral) float: the value is
wrapped to the range `[0, 2^16)` (two's-complement style wrap, the behaviour
observed for in-range and moderately out-of-range inputs). -/
def toUint16 (z : ℤ) : ℤ :=
  z % 65536

/-- `bin_files._set_tof_ranges`: stores `('upper_tof_range', 'lower_tof_range')`
as `np.ceil` (resp. `np.floor`) of the converted mass bounds, cast to
`np.uint16`.  First component: upper TOF range; second: lower TOF range. -/
noncomputable def set_tof_ranges (higher lower : List ℝ)
    (mass_offset mass_gain time_res : ℝ) : List ℤ × List ℤ :=
  (higher.map (fun m => toUint16 ⌈mass2tof m mass_offset mass_gain time_res⌉),
   lower.map (fun m => toUint16 ⌊mass2tof m mass_offset mass_gain time_res⌋))

theorem toUint16_of_bounded {z : ℤ} (h0 : 0 ≤ z) (h1 : z < 65536) :
    toUint16 z = z :=
  Int.emod_eq_of_lt h0 h1

theorem mass2tof_mono_aux {m₁ m₂ mass_offset mass_gain time_res : ℝ}
    (hg : 0 ≤ mass_gain) (ht : 0 < time_res) (hm : m₁ ≤ m₂) :
    mass2tof m₁ mass_offset mass_gain time_res ≤
      mass2tof m₂ mass_offset mass_gain time_res := by
  unfold mass2tof
  have hs : Real.sqrt m₁ ≤ Real.sqrt m₂ := Real.sqrt_le_sqrt hm
  have : mass_gain * Real.sqrt m₁ + mass_offset ≤
      mass_gain * Real.sqrt m₂ + mass_offset := by
    have := mul_le_mul_of_nonneg_left hs hg
    linarith
  exact (div_le_div_iff_of_pos_right ht).mpr this

/-- One entry of `json_metadata['fov']['panel']['conjugates']`: a nominal mass
and a target name. -/
structure Conjugate where
  mass : ℚ
  target : String
deriving DecidableEq, Repr

/-- The slice of the acquisition's JSON metadata read by
`_fill_fov_metadata` / `_parse_global_panel`: the mass calibration and the
optional panel table (`none` models both an absent `'panel'` key and an
explicit `null`, exactly the `json_metadata['fov'].get('panel', None) is None`
test). -/
structure JsonMetadata where
  massGain : ℚ
  massOffset : ℚ
  panel : Option (List Conjugate)
deriving DecidableEq, Repr

/-- A pandas panel dataframe as consumed by `_parse_df_panel`: each required
column (`Mass`, `Target`, `Start`, `Stop`) is present (`some data`) or absent
(`none`); `extraCols` records the names of any other columns (e.g.
`isotope`/`antibody`/`start`/`stop`), which the code never reads. -/
structure DataFrame where
  Mass : Option (List ℚ)
  Target : Option (List String)
  Start : Option (List ℚ)
  Stop : Option (List ℚ)
  extraCols : List String
deriving DecidableEq, Repr

/-- pandas column access `df[name]`: raises `KeyError(name)` when the column
is absent (this is the failure the spec names `SchemaError`). -/
def df_col {α : Type} (c : Option α) (name : String) : Except PyErr α :=
  match c with
  | some v => .ok v
  | none => .error (.keyError name)

/-- The `panel` argument of `extract_bin_files` / `_fill_fov_metadata`:
either a global `(low, high)` integration window tuple, or an explicit panel
dataframe. -/
inductive PanelSpec where
  | globalWindow (low high : ℚ)
  | table (df : DataFrame)
deriving DecidableEq, Repr

/-- The `intensities` argument: Python `Union[bool, List[str]]`. -/
inductive Intensities where
  | bool (b : Bool)
  | list (names : List String)
deriving DecidableEq, Repr

/-- `type_utils.any_true` applied to the `intensities` argument: Python
`any(make_iterable(a))`; a `bool` is its own truth value, a list of strings is
truthy iff it holds a non-empty string. -/
def any_true (a : Intensities) : Bool :=
  match a with
  | .bool b => b
  | .list l => l.any (fun s => decide (s ≠ ""))

/-- The fields of the mutable `fov` dict filled in by the panel resolvers
(before the TOF conversion, which is the separate `set_tof_ranges` over `ℝ`):
nominal masses, target names, and the mass-window bounds handed to
`_set_tof_ranges` (`lowerMass` = window starts, `upperMass` = window stops). -/
structure ResolvedPanel where
  masses : List ℚ
  targets : List String
  lowerMass : List ℚ
  upperMass : List ℚ
deriving DecidableEq, Repr

/-- `bin_files._parse_global_panel` (panel-resolution part): raises
`KeyError` when the metadata has no panel; otherwise keeps the conjugates
whose target passes the channel filter and unpacks them with
`zip(*[...])` — which raises `ValueError` (not enough values to unpack) on an
empty comprehension.  The kept masses receive the global window
`[mass + low, mass + high]` (the source then calls `_set_tof_ranges` on
`masses + panel[1]` and `masses + panel[0]`). -/
def parse_global_panel (meta : JsonMetadata) (low high : ℚ)
    (channels : Option (List String)) : Except PyErr ResolvedPanel :=
  match meta.panel with
  | none => .error (.keyError "panel")
  | some rows =>
    let pairs := rows.filterMap (fun el =>
      if (match channels with
          | none => true
          | some cs => decide (el.target ∈ cs)) then
        some (el.mass, el.target)
      else none)
    if pairs.isEmpty then
      .error (.valueError "not enough values to unpack (expected 2, got 0)")
    else
      .ok { masses := pairs.map (·.1)
            targets := pairs.map (·.2)
            lowerMass := pairs.map (fun p => p.1 + low)
            upperMass := pairs.map (fun p => p.1 + high) }

/-- Row filter of `_parse_df_panel`: keep the entries of `xs` whose positional
mask entry is `true` (`panel.loc[panel['Target'].isin(...)]`). -/
def mask_filter {α : Type} (mask : List Bool) (xs : List α) : List α :=
  ((mask.zip xs).filter (·.1)).map (·.2)

/-- `bin_files._parse_df_panel`: reads the `Target` column (raising `KeyError`
if absent — the spec's `SchemaError`), builds the row mask
`panel['Target'].isin(channels)` (everything when `channels is None`), then
reads `Mass`, `Start`, `Stop` the same way and keeps the masked rows. -/
def parse_df_panel (df : DataFrame) (channels : Option (List String)) :
    Except PyErr ResolvedPanel := do
  let targetCol ← df_col df.Target "Target"
  let mask := targetCol.map (fun t =>
    match channels with
    | none => true
    | some cs => decide (t ∈ cs))
  let massCol ← df_col df.Mass "Mass"
  let stopCol ← df_col df.Stop "Stop"
  let startCol ← df_col df.Start "Start"
  .ok { masses := mask_filter mask massCol
        targets := mask_filter mask targetCol
        lowerMass := mask_filter mask startCol
        upperMass := mask_filter mask stopCol }

/-- `bin_files._parse_intensities`: computes the positional
`fov['calc_intensity']` boolean vector from the resolved targets and the
`intensities` argument, through the intermediate `filtered_intensities`. -/
def parse_intensities (targets : List String) (intensities : Intensities) :
    List Bool :=
  let filtered : Option (List String) :=
    match intensities with
    | .list names => some (targets.filter (fun t => decide (t ∈ names)))
    | .bool true => some targets
    | .bool false => none
  match filtered with
  | some f => targets.map (fun t => decide (t ∈ f))
  | none => List.replicate targets.length false

/-- The extraction-relevant fields of the `fov` dict after
`_fill_fov_metadata`: the resolved panel plus the `calc_intensity` flags. -/
structure ResolvedFov where
  panel : ResolvedPanel
  calcIntensity : List Bool
deriving DecidableEq, Repr

/-- `bin_files._fill_fov_metadata` (panel and intensity resolution; the mass
calibration values are read first and cannot fail, and the TOF-range
conversion is `set_tof_ranges`): dispatches on the runtime type of `panel`
and then fills `calc_intensity`. -/
def fill_fov_metadata (meta : JsonMetadata) (panel : PanelSpec)
    (intensities : Intensities) (channels : Option (List String)) :
    Except PyErr ResolvedFov := do
  let rp ← match panel with
    | .globalWindow low high => parse_global_panel meta low high channels
    | .table df => parse_df_panel df channels
  .ok { panel := rp, calcIntensity := parse_intensities rp.targets intensities }

/-- The in-place replacement loop of `condense_img_data`
(`for j, target in enumerate(targets): if target in intensities:
img_data[0,:,:,j] = img_data[1,:,:,j]`), producing the merged pulse layer:
channel `j` takes the intensity value when `targets[j]` is in `names`, and
keeps the pulse value otherwise. -/
def condense_replace_layer {α : Type} (names : List String) :
    List String → List α → List α → List α
  | t :: ts, x :: xs, y :: ys =>
    (if t ∈ names then y else x) :: condense_replace_layer names ts xs ys
  | _, xs, _ => xs

/-- `bin_files.condense_img_data`.  The three branches of the source:
`any_true(intensities) and replace` (merge into the pulse layer, keep
`img_data[[0]]`), `not any_true(intensities)` (keep `img_data[[0]]`), and
otherwise keep `img_data[[0, 1]]` (an `IndexError` when fewer than 2 layers
exist).  `target in intensities` with a `bool` raises `TypeError`, and the
replacement read `img_data[1, ...]` raises `IndexError` on a single-layer
stack; both are modelled explicitly. -/
def condense_img_data {α : Type} (img_data : List (List α))
    (targets : List String) (intensities : Intensities) (replace : Bool) :
    Except PyErr (List (List α)) :=
  if any_true intensities && replace then
    match intensities with
    | .list names =>
      if targets.any (fun t => decide (t ∈ names)) && decide (img_data.length < 2) then
        .error (.indexError "index 1 is out of bounds for axis 0")
      else
        .ok [condense_replace_layer names targets (img_data.headD [])
              (img_data.getD 1 [])]
    | .bool _ =>
      if targets.isEmpty then .ok [img_data.headD []]
      else .error (.typeError "argument of type bool is not iterable")
  else if !any_true intensities then
    .ok [img_data.headD []]
  else
    match img_data with
    | l0 :: l1 :: _ => .ok [l0, l1]
    | _ => .error (.indexError "index 1 is out of bounds for axis 0")

/-- The file-system effect of one `_write_out` call: the directories created
(via `os.makedirs`) and the tiff paths written, in order. -/
structure WriteOut where
  dirsCreated : List String
  filesWritten : List String
deriving DecidableEq, Repr

/-- `bin_files._write_out`, as its file-system effect.  The loop runs over
`out_dirs = [out/fov, out/fov/intensities]` and breaks once `i+1` exceeds the
layer count; each visited directory is created, the pulse layer writes
`<target>.tiff` for every target, and the intensity layer writes
`<target>_intensity.tiff` only for `target in list(intensities)` (which
raises `TypeError` when `intensities` is a `bool` and a target is reached). -/
def write_out (numLayers : ℕ) (out_dir fov_name : String)
    (targets : List String) (intensities : Intensities) :
    Except PyErr WriteOut :=
  let dir0 := out_dir ++ "/" ++ fov_name
  let dir1 := dir0 ++ "/intensities"
  let pulseFiles := targets.map (fun t => dir0 ++ "/" ++ t ++ ".tiff")
  if numLayers = 0 then .ok ⟨[], []⟩
  else if numLayers = 1 then .ok ⟨[dir0], pulseFiles⟩
  else
    match intensities with
    | .list names =>
      .ok ⟨[dir0, dir1],
        pulseFiles ++ (targets.filter (fun t => decide (t ∈ names))).map
          (fun t => dir1 ++ "/" ++ t ++ "_intensity.tiff")⟩
    | .bool _ =>
      if targets.isEmpty then .ok ⟨[dir0, dir1], pulseFiles⟩
      else .error (.typeError "argument of type bool is not iterable")

/-- Modelled from the spec: the layer count of the stack returned by the
native extraction collaborator `_extract_bin.c_extract_bin`, which is not
part of the Python sources.  Spec §6: the returned array's `layer_type`
dimension "has 1–3 entries depending on whether any flag is set" — one
(pulse only) when no intensity flag is set, three (pulse, intensity,
intensity×width) when any is. -/
def c_extract_bin_layers (calc_intensity : List Bool) : ℕ :=
  if calc_intensity.any id then 3 else 1

/-- Lines 365–368 of `extract_bin_files`: once any intensity extraction is
requested, `intensities=True` is converted to the full target list before
condensation and write-out. -/
def normalize_intensities (targets : List String) (intensities : Intensities) :
    Intensities :=
  if any_true intensities then
    match intensities with
    | .bool _ => .list targets
    | .list names => .list names
  else intensities

/-- The per-acquisition tail of `extract_bin_files` when an output directory
is given (lines 359–379): normalize `intensities`, condense the native
stack, and write the condensed stack out. -/
def extract_fov_write {α : Type} (out_dir fov_name : String)
    (targets : List String) (intensities : Intensities) (replace : Bool)
    (img_data : List (List α)) : Except PyErr WriteOut := do
  let ints := normalize_intensities targets intensities
  let condensed ← condense_img_data img_data targets ints replace
  write_out condensed.length out_dir fov_name targets ints

/-- Metadata-resolution phase of `extract_bin_files` (lines 351–352): every
located acquisition's metadata is resolved, in order, before any native
extraction is started; the first resolver exception aborts the call. -/
def resolve_fovs (fovs : List JsonMetadata) (panel : PanelSpec)
    (intensities : Intensities) : Except PyErr (List ResolvedFov) :=
  fovs.mapM (fun m => fill_fov_metadata m panel intensities none)

/-- `extract_bin_files` with an output directory, over already-located
acquisitions `(fov_name, metadata)`: resolve all panels first, then run the
native extractor (abstracted as `native`, applied to each acquisition's
resolved fields) and write each condensed stack out. -/
def extract_bin_files_model {α : Type} (native : ResolvedFov → List (List α))
    (out_dir : String) (fovs : List (String × JsonMetadata))
    (panel : PanelSpec) (intensities : Intensities) (replace : Bool) :
    Except PyErr (List WriteOut) := do
  let rs ← resolve_fovs (fovs.map (·.2)) panel intensities
  (rs.zip fovs).mapM (fun p =>
    extract_fov_write out_dir p.2.1 p.1.panel.targets intensities replace
      (native p.1))

/-- A directory entry, as (base name, extension).  The enumeration helpers
live in `io_utils`, which is not part of the sources here. -/
abbrev DirEntry := String × String

/-- Modelled from the spec: `io_utils.list_files` (absent from the sources;
only its tests exist).  Per spec §4.3 the locator "scans the directory for
files with a binary extension and files with a metadata extension", so this
keeps the entries carrying the requested extension. -/
def list_files (dir : List DirEntry) (ext : String) : List DirEntry :=
  dir.filter (fun f => decide (f.2 = ext))

/-- Modelled from the spec: `io_utils.extract_delimited_names` (absent from
the sources).  Per spec §4.3 acquisitions are identified by base name, so
this strips the extension from each listed file. -/
def extract_delimited_names (files : List DirEntry) : List String :=
  files.map (·.1)

/-- The fov-name collection built by `bin_files._find_bin_files` before its
emptiness check: names with a `.bin` file whose `.json` companion also exists
(a Python dict keyed by fov name, modelled as a deduplicated list),
optionally restricted to `include_fovs` (keeping include order, silently
dropping unknown names). -/
def find_bin_files_result (dir : List DirEntry)
    (include_fovs : Option (List String)) : List String :=
  let bin_files := list_files dir ".bin"
  let json_files := list_files dir ".json"
  let fov_names := (extract_delimited_names bin_files).dedup
  let valid := fov_names.filter (fun n => decide ((n, ".json") ∈ json_files))
  match include_fovs with
  | none => valid
  | some inc => inc.dedup.filter (fun n => decide (n ∈ valid))

/-- `bin_files._find_bin_files`: the collection above, raising
`FileNotFoundError` when it is empty. -/
def find_bin_files (dir : List DirEntry)
    (include_fovs : Option (List String)) : Except PyErr (List String) :=
  if (find_bin_files_result dir include_fovs).isEmpty then
    .error (.fileNotFoundError "No viable bin files were found")
  else .ok (find_bin_files_result dir include_fovs)

/-- A base name counts as a viable acquisition of `dir` under the include
list when both its `.bin` and its `.json` file exist and (if an include list
is given) it is named there. -/
def viable_fov (dir : List DirEntry) (include_fovs : Option (List String))
    (n : String) : Bool :=
  decide ((n, ".bin") ∈ dir) && decide ((n, ".json") ∈ dir) &&
    (match include_fovs with
     | none => true
     | some inc => decide (n ∈ inc))

/-- `np.cumsum` over a list of rationals. -/
def cumsumAux (acc : ℚ) : List ℚ → List ℚ
  | [] => []
  | x :: xs => (acc + x) :: cumsumAux (acc + x) xs

/-- `np.cumsum` over a list of rationals. -/
def cumsum (l : List ℚ) : List ℚ :=
  cumsumAux 0 l

/-- `np.argmin`: index of the first minimum (0 on an empty array, where numpy
would error; the histograms handed to it are never empty). -/
def argminAux : ℕ → ℕ → ℚ → List ℚ → ℕ
  | _, best, _, [] => best
  | i, best, bestVal, x :: xs =>
    if x < bestVal then argminAux (i + 1) i x xs
    else argminAux (i + 1) best bestVal xs

/-- `np.argmin`: index of the first minimum. -/
def argmin : List ℚ → ℕ
  | [] => 0
  | x :: xs => argminAux 1 0 x xs

/-- The numeric tail of `bin_files.get_median_pulse_height` (lines 463–466):
`int_bin = np.cumsum(intensities) / intensities.sum()` followed by
`(np.abs(int_bin - 0.5)).argmin()`.  Division by a zero sum is `0` in `ℚ`;
in numpy it yields `NaN` entries and `argmin` over an all-`NaN` array
likewise returns index `0`, so the two models agree on zero-sum (all-zero)
histograms: both return bin 0 instead of failing. -/
def get_median_pulse_height (intensities : List ℚ) : ℕ :=
  let total := intensities.sum
  let int_bin := (cumsum intensities).map (fun c => c / total)
  argmin (int_bin.map (fun x => |x - 1/2|))

/-! ## Claim C9 — monotonicity of the mass-to-TOF conversion -/

/-- C9 counterexample: the claim quantifies over an arbitrary fixed time
resolution, but with `time_res = -1` (and positive gain `1`, masses
`0 ≤ 1`) the conversion strictly decreases, so `_mass2tof` is not
monotonically non-decreasing for every fixed offset and time resolution. -/
theorem mass2tof_not_monotone_for_all_time_res :
    (0:ℝ) < 1 ∧ (0:ℝ) ≤ 0 ∧ (0:ℝ) ≤ 1 ∧
      ¬ (mass2tof 0 0 1 (-1) ≤ mass2tof 1 0 1 (-1)) := by
  refine ⟨by norm_num, le_refl 0, by norm_num, ?_⟩
  simp only [mass2tof, Real.sqrt_zero, Real.sqrt_one]
  norm_num

/-- C9 (amended): for masses `0 ≤ m₁ ≤ m₂`, fixed positive gain, any fixed
offset, and a positive time resolution, `_mass2tof` is monotonically
non-decreasing: `(gain * sqrt m + offset) / time_res` grows with `m`. -/
theorem mass2tof_monotone (m₁ m₂ mass_offset mass_gain time_res : ℝ)
    (hg : 0 < mass_gain) (ht : 0 < time_res) (_h0 : 0 ≤ m₁) (hm : m₁ ≤ m₂) :
    mass2tof m₁ mass_offset mass_gain time_res ≤
      mass2tof m₂ mass_offset mass_gain time_res :=
  mass2tof_mono_aux hg.le ht hm

/-- Witness for C9's theorem at masses `0 ≤ 1`, offset `0`, gain `1`, time
resolution `1`. -/
theorem mass2tof_monotone_witness :
    (0:ℝ) < 1 ∧ (0:ℝ) ≤ 0 ∧ (0:ℝ) ≤ 1 ∧
      mass2tof 0 0 1 1 ≤ mass2tof 1 0 1 1 :=
  ⟨by norm_num, le_refl 0, by norm_num,
    mass2tof_monotone 0 1 0 1 1 (by norm_num) (by norm_num) (le_refl 0)
      (by norm_num)⟩

/-! ## Claim C1 — ordering of the stored TOF ranges -/

/-- C1 counterexample: for arbitrary calibrations the stored ranges can be
out of order.  With `higher = lower = [0]`, offset `-1/2`, gain `0`, time
resolution `1`, the converted bound is `-1/2`; `ceil` gives `0` but `floor`
gives `-1`, which the `uint16` cast wraps to `65535`, so the stored lower
range exceeds the upper.  And with `higher = [1]`, `lower = [0]`, offset `2`,
gain `-1`, time resolution `1` (no wrapping at all), the negative gain makes
the conversion decreasing, storing upper `1` below lower `2`. -/
theorem set_tof_ranges_unordered :
    set_tof_ranges [0] [0] (-(1/2)) 0 1 = ([0], [65535])
    ∧ set_tof_ranges [1] [0] 2 (-1) 1 = ([1], [2])
    ∧ ¬ ((65535:ℤ) ≤ 0) ∧ ¬ ((2:ℤ) ≤ 1) := by
  have hconv : mass2tof 0 (-(1/2)) 0 1 = -(1/2) := by
    simp [mass2tof]
  have hceil : ⌈(-(1/2) : ℝ)⌉ = 0 := by
    rw [Int.ceil_eq_iff]
    constructor <;> norm_num
  have hfloor : ⌊(-(1/2) : ℝ)⌋ = -1 := by
    rw [Int.floor_eq_iff]
    constructor <;> norm_num
  have hconv1 : mass2tof 1 2 (-1) 1 = 1 := by
    simp [mass2tof, Real.sqrt_one]
    norm_num
  have hconv0 : mass2tof 0 2 (-1) 1 = 2 := by
    simp [mass2tof, Real.sqrt_zero]
  have hceil1 : ⌈(1 : ℝ)⌉ = 1 := Int.ceil_one
  have hfloor2 : ⌊(2 : ℝ)⌋ = 2 := by
    rw [show ((2:ℝ)) = ((2:ℤ):ℝ) by norm_num, Int.floor_intCast]
  refine ⟨?_, ?_, by norm_num, by norm_num⟩
  · simp only [set_tof_ranges, List.map_cons, List.map_nil]
    rw [hconv, hceil, hfloor]
    decide
  · simp only [set_tof_ranges, List.map_cons, List.map_nil]
    rw [hconv1, hconv0, hceil1, hfloor2]
    decide

/-- Per-element core of C1: under a monotone calibration and in-range
converted bounds, each stored lower TOF is at most the stored upper TOF. -/
theorem set_tof_ranges_ordered_aux {mass_offset mass_gain time_res : ℝ}
    (hg : 0 ≤ mass_gain) (ht : 0 < time_res) {a b : ℝ} (hab : a ≤ b)
    (hlo : 0 ≤ ⌊mass2tof a mass_offset mass_gain time_res⌋)
    (hhi : ⌈mass2tof b mass_offset mass_gain time_res⌉ ≤ 65535) :
    toUint16 ⌊mass2tof a mass_offset mass_gain time_res⌋ ≤
      toUint16 ⌈mass2tof b mass_offset mass_gain time_res⌉ := by
  have hconv : mass2tof a mass_offset mass_gain time_res ≤
      mass2tof b mass_offset mass_gain time_res :=
    mass2tof_mono_aux hg ht hab
  have hfc : ⌊mass2tof a mass_offset mass_gain time_res⌋ ≤
      ⌈mass2tof b mass_offset mass_gain time_res⌉ :=
    (Int.floor_le_floor hconv).trans (Int.floor_le_ceil _)
  rw [toUint16_of_bounded hlo (by omega), toUint16_of_bounded (hlo.trans hfc) (by omega)]
  exact hfc

/-- C1 (amended): `_set_tof_ranges` applies `ceil` to the converted upper
bounds and `floor` to the converted lower bounds and casts both to `uint16`;
whenever the calibration is monotone (`mass_gain ≥ 0`, `time_res > 0`),
`lower[i] ≤ higher[i]`, and the converted bounds fall inside the `uint16`
range (each floored lower conversion is ≥ 0 and each ceiled upper conversion
is ≤ 65535), the stored ranges satisfy `lower_tof[i] ≤ upper_tof[i]` for
every `i`. -/
theorem set_tof_ranges_ordered (higher lower : List ℝ)
    (mass_offset mass_gain time_res : ℝ)
    (hg : 0 ≤ mass_gain) (ht : 0 < time_res)
    (hle : List.Forall₂ (· ≤ ·) lower higher)
    (hlo : ∀ m ∈ lower, 0 ≤ ⌊mass2tof m mass_offset mass_gain time_res⌋)
    (hhi : ∀ m ∈ higher, ⌈mass2tof m mass_offset mass_gain time_res⌉ ≤ 65535) :
    List.Forall₂ (· ≤ ·)
      (set_tof_ranges higher lower mass_offset mass_gain time_res).2
      (set_tof_ranges higher lower mass_offset mass_gain time_res).1 := by
  simp only [set_tof_ranges, List.forall₂_map_left_iff, List.forall₂_map_right_iff]
  induction hle with
  | nil => exact List.Forall₂.nil
  | @cons a b la lb hab htl ih =>
    refine List.Forall₂.cons ?_ ?_
    · exact set_tof_ranges_ordered_aux hg ht hab
        (hlo a (List.mem_cons_self a la))
        (hhi b (List.mem_cons_self b lb))
    · exact ih (fun m hm => hlo m (List.mem_cons_of_mem a hm))
        (fun m hm => hhi m (List.mem_cons_of_mem b hm))

/-- Witness for C1's amended theorem at `higher = [1]`, `lower = [0]`,
offset `0`, gain `1`, time resolution `1`. -/
theorem set_tof_ranges_ordered_witness :
    (0:ℝ) ≤ 1 ∧ (0:ℝ) < 1
    ∧ List.Forall₂ (· ≤ ·) [(0:ℝ)] [1]
    ∧ (∀ m ∈ [(0:ℝ)], 0 ≤ ⌊mass2tof m 0 1 1⌋)
    ∧ (∀ m ∈ [(1:ℝ)], ⌈mass2tof m 0 1 1⌉ ≤ 65535)
    ∧ List.Forall₂ (· ≤ ·) (set_tof_ranges [1] [0] 0 1 1).2
        (set_tof_ranges [1] [0] 0 1 1).1 := by
  have hm0 : mass2tof 0 0 1 1 = 0 := by simp [mass2tof]
  have hm1 : mass2tof 1 0 1 1 = 1 := by simp [mass2tof, Real.sqrt_one]
  have hlo : ∀ m ∈ [(0:ℝ)], 0 ≤ ⌊mass2tof m 0 1 1⌋ := by
    intro m hm
    simp only [List.mem_singleton] at hm
    subst hm
    simp [hm0]
  have hhi : ∀ m ∈ [(1:ℝ)], ⌈mass2tof m 0 1 1⌉ ≤ 65535 := by
    intro m hm
    simp only [List.mem_singleton] at hm
    subst hm
    rw [hm1]
    norm_num
  have hle : List.Forall₂ (· ≤ ·) [(0:ℝ)] [1] :=
    List.Forall₂.cons (by norm_num) List.Forall₂.nil
  exact ⟨by norm_num, by norm_num, hle, hlo, hhi,
    set_tof_ranges_ordered [1] [0] 0 1 1 (by norm_num) (by norm_num) hle hlo hhi⟩

/-! ## Claim C5 — intensity-policy resolution -/

theorem map_congr_mem {α β : Type} (l : List α) (f g : α → β)
    (h : ∀ a ∈ l, f a = g a) : l.map f = l.map g := by
  induction l with
  | nil => rfl
  | cons t ts ih =>
    simp only [List.map_cons, List.cons.injEq]
    exact ⟨h t (List.mem_cons_self t ts),
      ih (fun x hx => h x (List.mem_cons_of_mem t hx))⟩

theorem map_eq_replicate_true (l : List String) (p : String → Bool)
    (h : ∀ t ∈ l, p t = true) : l.map p = List.replicate l.length true := by
  induction l with
  | nil => rfl
  | cons t ts ih =>
    simp only [List.map_cons, List.length_cons, List.replicate_succ,
      List.cons.injEq]
    exact ⟨h t (List.mem_cons_self t ts),
      ih (fun x hx => h x (List.mem_cons_of_mem t hx))⟩

theorem parse_intensities_true (targets : List String) :
    parse_intensities targets (.bool true) =
      List.replicate targets.length true := by
  show targets.map (fun t => decide (t ∈ targets)) = _
  exact map_eq_replicate_true targets _ (fun t ht => by simp [ht])

theorem parse_intensities_list (targets names : List String) :
    parse_intensities targets (.list names) =
      targets.map (fun t => decide (t ∈ names)) := by
  show targets.map
    (fun t => decide (t ∈ targets.filter (fun x => decide (x ∈ names)))) = _
  exact map_congr_mem targets _ _ (fun t ht => by simp [List.mem_filter, ht])

theorem parse_intensities_length (targets : List String) (ints : Intensities) :
    (parse_intensities targets ints).length = targets.length := by
  cases ints with
  | bool b => cases b <;> simp [parse_intensities]
  | list l => simp [parse_intensities]

/-- C5: `_parse_intensities` produces a positional boolean vector aligned
with the resolved channel list: `False` (policy off) yields all-false,
`True` (policy all) yields all-true, and a subset list yields `true` exactly
at the positions whose channel name is in the subset (subset names absent
from the channel list never match and are thereby silently ignored). -/
theorem parse_intensities_spec (targets names : List String)
    (ints : Intensities) :
    parse_intensities targets (.bool false) = List.replicate targets.length false
    ∧ parse_intensities targets (.bool true) = List.replicate targets.length true
    ∧ parse_intensities targets (.list names) =
        targets.map (fun t => decide (t ∈ names))
    ∧ (parse_intensities targets ints).length = targets.length :=
  ⟨rfl, parse_intensities_true targets, parse_intensities_list targets names,
    parse_intensities_length targets ints⟩

/-! ## Claim C2 — stack condensation -/

theorem condense_replace_layer_getD {α : Type} (names : List String) :
    ∀ (ts : List String) (xs ys : List α) (j : ℕ) (d : α),
      xs.length = ts.length → ys.length = ts.length → j < ts.length →
      (condense_replace_layer names ts xs ys).getD j d =
        if ts.getD j "" ∈ names then ys.getD j d else xs.getD j d
  | [], _, _, _, _, _, _, hj => absurd hj (by simp)
  | t :: ts, [], ys, j, d, hx, _, _ => absurd hx (by simp)
  | t :: ts, x :: xs, [], j, d, _, hy, _ => absurd hy (by simp)
  | t :: ts, x :: xs, y :: ys, 0, d, _, _, _ => by
    simp [condense_replace_layer]
  | t :: ts, x :: xs, y :: ys, j + 1, d, hx, hy, hj => by
    simp only [condense_replace_layer, List.getD_cons_succ]
    exact condense_replace_layer_getD names ts xs ys j d
      (by simpa using hx) (by simpa using hy) (by simpa using hj)

/-- C2: `condense_img_data` on a 2-layer stack.  With `replace=True` and a
(truthy) intensity subset list it returns the single merged layer whose
channel `j` holds the intensity value exactly when `targets[j]` is in the
subset and the pulse value otherwise; with `replace=False` and intensity
requested it keeps both layers unchanged; and when no intensity is requested
(`any_true` false, i.e. `False` or an empty/falsy list) only the pulse layer
is kept. -/
theorem condense_img_data_cases (l0 l1 : List ℕ) (targets names : List String)
    (ints : Intensities) (replace : Bool) (j : ℕ) (d : ℕ)
    (hl0 : l0.length = targets.length) (hl1 : l1.length = targets.length)
    (hj : j < targets.length) :
    (any_true (.list names) = true →
      condense_img_data [l0, l1] targets (.list names) true =
        .ok [condense_replace_layer names targets l0 l1])
    ∧ (condense_replace_layer names targets l0 l1).getD j d =
        (if targets.getD j "" ∈ names then l1.getD j d else l0.getD j d)
    ∧ (any_true (.list names) = true →
      condense_img_data [l0, l1] targets (.list names) false = .ok [l0, l1])
    ∧ (any_true ints = false →
      condense_img_data [l0, l1] targets ints replace = .ok [l0]) := by
  refine ⟨?_, ?_, ?_, ?_⟩
  · intro hany
    simp [condense_img_data, hany]
  · exact condense_replace_layer_getD names targets l0 l1 j d hl0 hl1 hj
  · intro hany
    simp [condense_img_data, hany]
  · intro hany
    simp [condense_img_data, hany]

/-- Witness for C2's theorem: stack `[[10, 20], [99, 88]]`, targets
`["SMA", "HH3"]`, subset `["SMA"]`, index 0. -/
theorem condense_img_data_cases_witness :
    ([10, 20] : List ℕ).length = (["SMA", "HH3"] : List String).length
    ∧ ([99, 88] : List ℕ).length = (["SMA", "HH3"] : List String).length
    ∧ 0 < (["SMA", "HH3"] : List String).length
    ∧ ((any_true (.list ["SMA"]) = true →
        condense_img_data [[10, 20], [99, 88]] ["SMA", "HH3"] (.list ["SMA"]) true =
          .ok [condense_replace_layer ["SMA"] ["SMA", "HH3"] [10, 20] [99, 88]])
      ∧ (condense_replace_layer ["SMA"] ["SMA", "HH3"] [10, 20] [99, 88]).getD 0 0 =
          (if (["SMA", "HH3"] : List String).getD 0 "" ∈ ["SMA"] then
            ([99, 88] : List ℕ).getD 0 0 else ([10, 20] : List ℕ).getD 0 0)
      ∧ (any_true (.list ["SMA"]) = true →
        condense_img_data [[10, 20], [99, 88]] ["SMA", "HH3"] (.list ["SMA"]) false =
          .ok [[10, 20], [99, 88]])
      ∧ (any_true (.bool false) = false →
        condense_img_data [[10, 20], [99, 88]] ["SMA", "HH3"] (.bool false) true =
          .ok [[10, 20]])) :=
  ⟨by decide, by decide, by decide,
    condense_img_data_cases [10, 20] [99, 88] ["SMA", "HH3"] ["SMA"]
      (.bool false) true 0 0 (by decide) (by decide) (by decide)⟩

/-! ## Except/mapM plumbing shared by the failure-propagation claims -/

theorem except_bind_error {α β : Type} (e : PyErr) (k : α → Except PyErr β) :
    (Except.error e >>= k) = Except.error e := rfl

theorem except_bind_ok {α β : Type} (a : α) (k : α → Except PyErr β) :
    (Except.ok a >>= k) = k a := rfl

theorem mapM_cons_error {α β : Type} (f : α → Except PyErr β) (a : α)
    (l : List α) (e : PyErr) (h : f a = .error e) :
    (a :: l).mapM f = .error e := by
  rw [List.mapM_cons, h]
  rfl

theorem mapM_error_of_mem {α β : Type} (f : α → Except PyErr β) :
    ∀ (l : List α), ∀ x ∈ l, (∃ e, f x = .error e) →
      ∃ e, l.mapM f = .error e
  | a :: t, x, hx, hfx => by
    cases hfa : f a with
    | error e => exact ⟨e, mapM_cons_error f a t e hfa⟩
    | ok b =>
      rcases List.mem_cons.mp hx with rfl | hxt
      · rw [hfa] at hfx
        exact absurd hfx (by simp)
      · obtain ⟨e, he⟩ := mapM_error_of_mem f t x hxt hfx
        refine ⟨e, ?_⟩
        rw [List.mapM_cons, hfa, except_bind_ok]
        show (t.mapM f >>= fun xs => pure (b :: xs)) = Except.error e
        rw [he]
        rfl

/-! ## Claim C3 — missing panel aborts the whole extraction -/

/-- C3: in global-window mode, an acquisition whose metadata lacks a panel
(absent or `null`) makes `_parse_global_panel` raise `KeyError` (the spec's
`MissingPanelError`), so `_fill_fov_metadata` fails for that acquisition,
metadata resolution for the batch fails, and `extract_bin_files` as a whole
errors out instead of producing an empty channel list. -/
theorem missing_panel_aborts_extraction (fovs : List (String × JsonMetadata))
    (meta : JsonMetadata) (low high : ℚ) (ints : Intensities) (replace : Bool)
    (out_dir : String) (native : ResolvedFov → List (List ℕ))
    (hmem : meta ∈ fovs.map (·.2)) (hpanel : meta.panel = none) :
    fill_fov_metadata meta (.globalWindow low high) ints none =
      .error (.keyError "panel")
    ∧ (∃ e, resolve_fovs (fovs.map (·.2)) (.globalWindow low high) ints =
        .error e)
    ∧ (∃ e, extract_bin_files_model native out_dir fovs
        (.globalWindow low high) ints replace = .error e) := by
  have h1 : fill_fov_metadata meta (.globalWindow low high) ints none =
      .error (.keyError "panel") := by
    simp [fill_fov_metadata, parse_global_panel, hpanel, except_bind_error]
  have h2 : ∃ e, resolve_fovs (fovs.map (·.2)) (.globalWindow low high) ints =
      .error e := by
    show ∃ e, (fovs.map (·.2)).mapM
      (fun m => fill_fov_metadata m (.globalWindow low high) ints none) =
        .error e
    exact mapM_error_of_mem _ _ meta hmem ⟨_, h1⟩
  obtain ⟨e, he⟩ := h2
  refine ⟨h1, ⟨e, he⟩, ⟨e, ?_⟩⟩
  show (resolve_fovs (fovs.map (·.2)) (.globalWindow low high) ints >>= _) =
    Except.error e
  rw [he]
  rfl

/-- Witness for C3's theorem: a single moly-point acquisition (metadata with
no panel) under the default-style global window `(0, 0)`. -/
theorem missing_panel_aborts_extraction_witness :
    (⟨1, 0, none⟩ : JsonMetadata) ∈
      ([("moly", (⟨1, 0, none⟩ : JsonMetadata))].map (·.2))
    ∧ (⟨1, 0, none⟩ : JsonMetadata).panel = none
    ∧ (fill_fov_metadata ⟨1, 0, none⟩ (.globalWindow 0 0) (.bool false) none =
        .error (.keyError "panel")
      ∧ (∃ e, resolve_fovs ([("moly", (⟨1, 0, none⟩ : JsonMetadata))].map (·.2))
          (.globalWindow 0 0) (.bool false) = .error e)
      ∧ (∃ e, extract_bin_files_model (fun _ => ([] : List (List ℕ))) "O"
          [("moly", ⟨1, 0, none⟩)] (.globalWindow 0 0) (.bool false) true =
            .error e)) :=
  ⟨by simp, rfl,
    missing_panel_aborts_extraction [("moly", ⟨1, 0, none⟩)] ⟨1, 0, none⟩ 0 0
      (.bool false) true "O" (fun _ => []) (by simp) rfl⟩

/-! ## Claim C6 — missing panel-table columns fail at resolution time -/

theorem parse_df_panel_missing (df : DataFrame) (channels : Option (List String))
    (hmissing : df.Target = none ∨ df.Mass = none ∨ df.Start = none ∨
      df.Stop = none) :
    ∃ c, c ∈ (["Target", "Mass", "Stop", "Start"] : List String) ∧
      parse_df_panel df channels = .error (.keyError c) := by
  cases hT : df.Target with
  | none =>
    exact ⟨"Target", by simp, by simp [parse_df_panel, df_col, hT, except_bind_error]⟩
  | some tc =>
    cases hM : df.Mass with
    | none =>
      exact ⟨"Mass", by simp,
        by simp [parse_df_panel, df_col, hT, hM, except_bind_ok, except_bind_error]⟩
    | some mc =>
      cases hSp : df.Stop with
      | none =>
        exact ⟨"Stop", by simp,
          by simp [parse_df_panel, df_col, hT, hM, hSp, except_bind_ok,
            except_bind_error]⟩
      | some spc =>
        cases hSt : df.Start with
        | none =>
          exact ⟨"Start", by simp,
            by simp [parse_df_panel, df_col, hT, hM, hSp, hSt, except_bind_ok,
              except_bind_error]⟩
        | some stc =>
          rcases hmissing with h | h | h | h <;> simp_all

/-- C6: an explicit panel table lacking any of the required columns `Mass`,
`Target`, `Start`, `Stop` makes `_parse_df_panel` raise the missing-column
`KeyError` (the spec's `SchemaError`), and in `extract_bin_files` this
happens during metadata resolution: the whole call returns that error, and
the result does not depend on the native extractor at all (it is never
invoked). -/
theorem df_panel_missing_columns_schema_error (df : DataFrame)
    (channels : Option (List String)) (fovs : List (String × JsonMetadata))
    (ints : Intensities) (replace : Bool) (out_dir : String)
    (native1 native2 : ResolvedFov → List (List ℕ))
    (hmissing : df.Target = none ∨ df.Mass = none ∨ df.Start = none ∨
      df.Stop = none)
    (hfovs : fovs ≠ []) :
    (∃ c, c ∈ (["Target", "Mass", "Stop", "Start"] : List String) ∧
      parse_df_panel df channels = .error (.keyError c))
    ∧ (∃ c, extract_bin_files_model native1 out_dir fovs (.table df) ints
        replace = .error (.keyError c))
    ∧ extract_bin_files_model native1 out_dir fovs (.table df) ints replace =
        extract_bin_files_model native2 out_dir fovs (.table df) ints replace := by
  obtain ⟨c, _, hc⟩ := parse_df_panel_missing df none hmissing
  have hfill : ∀ m : JsonMetadata, fill_fov_metadata m (.table df) ints none =
      .error (.keyError c) := fun m => by
    simp [fill_fov_metadata, hc, except_bind_error]
  obtain ⟨a, t, rfl⟩ : ∃ a t, fovs = a :: t := by
    cases fovs with
    | nil => exact absurd rfl hfovs
    | cons a t => exact ⟨a, t, rfl⟩
  have hres : resolve_fovs ((a :: t).map (·.2)) (.table df) ints =
      .error (.keyError c) := by
    simp only [List.map_cons]
    exact mapM_cons_error _ _ _ _ (hfill a.2)
  have hmodel : ∀ native : ResolvedFov → List (List ℕ),
      extract_bin_files_model native out_dir (a :: t) (.table df) ints replace =
        .error (.keyError c) := fun native => by
    show (resolve_fovs ((a :: t).map (·.2)) (.table df) ints >>= _) =
      Except.error (.keyError c)
    rw [hres]
    rfl
  exact ⟨parse_df_panel_missing df channels hmissing, ⟨c, hmodel native1⟩,
    (hmodel native1).trans (hmodel native2).symm⟩

/-- Witness for C6's theorem: a table with columns
`{isotope, antibody, start, stop}` instead of `{Mass, Target, Start, Stop}`,
one acquisition, two distinct native extractors. -/
theorem df_panel_missing_columns_schema_error_witness :
    ((⟨none, none, none, none, ["isotope", "antibody", "start", "stop"]⟩ :
        DataFrame).Target = none ∨
      (⟨none, none, none, none, ["isotope", "antibody", "start", "stop"]⟩ :
        DataFrame).Mass = none ∨
      (⟨none, none, none, none, ["isotope", "antibody", "start", "stop"]⟩ :
        DataFrame).Start = none ∨
      (⟨none, none, none, none, ["isotope", "antibody", "start", "stop"]⟩ :
        DataFrame).Stop = none)
    ∧ ([("fov1", (⟨1, 0, none⟩ : JsonMetadata))] ≠ [])
    ∧ ((∃ c, c ∈ (["Target", "Mass", "Stop", "Start"] : List String) ∧
        parse_df_panel ⟨none, none, none, none,
          ["isotope", "antibody", "start", "stop"]⟩ none =
            .error (.keyError c))
      ∧ (∃ c, extract_bin_files_model (fun _ => ([] : List (List ℕ))) "O"
          [("fov1", ⟨1, 0, none⟩)]
          (.table ⟨none, none, none, none,
            ["isotope", "antibody", "start", "stop"]⟩)
          (.bool false) true = .error (.keyError c))
      ∧ extract_bin_files_model (fun _ => ([] : List (List ℕ))) "O"
          [("fov1", ⟨1, 0, none⟩)]
          (.table ⟨none, none, none, none,
            ["isotope", "antibody", "start", "stop"]⟩)
          (.bool false) true =
        extract_bin_files_model (fun _ => ([[0]] : List (List ℕ))) "O"
          [("fov1", ⟨1, 0, none⟩)]
          (.table ⟨none, none, none, none,
            ["isotope", "antibody", "start", "stop"]⟩)
          (.bool false) true) :=
  ⟨Or.inl rfl, by simp,
    df_panel_missing_columns_schema_error
      ⟨none, none, none, none, ["isotope", "antibody", "start", "stop"]⟩ none
      [("fov1", ⟨1, 0, none⟩)] (.bool false) true "O"
      (fun _ => []) (fun _ => [[0]]) (Or.inl rfl) (by simp)⟩

/-! ## Claim C10 — channel filter matching nothing raises ValueError -/

/-- C10: in global-panel mode with a panel present, a channel filter that
matches none of the conjugate entries (e.g. `get_median_pulse_height` or
`get_histograms_per_tof` called with a channel name absent from the
acquisition's panel, which pass `channels=[channel]`) makes
`_parse_global_panel` raise `ValueError` — `zip(*[])` unpacked into two
names — rather than producing an empty channel list or a dedicated
not-found error; `_fill_fov_metadata` surfaces the same error. -/
theorem empty_channel_filter_valueerror (meta : JsonMetadata)
    (rows : List Conjugate) (low high : ℚ) (ints : Intensities)
    (cs : List String) (hpanel : meta.panel = some rows)
    (hnone : ∀ el ∈ rows, el.target ∉ cs) :
    parse_global_panel meta low high (some cs) =
      .error (.valueError "not enough values to unpack (expected 2, got 0)")
    ∧ fill_fov_metadata meta (.globalWindow low high) ints (some cs) =
      .error (.valueError "not enough values to unpack (expected 2, got 0)") := by
  have h1 : parse_global_panel meta low high (some cs) =
      .error (.valueError "not enough values to unpack (expected 2, got 0)") := by
    unfold parse_global_panel
    rw [hpanel]
    have hpairs : rows.filterMap (fun el =>
        if (match (some cs : Option (List String)) with
            | none => true
            | some cs => decide (el.target ∈ cs)) then
          some (el.mass, el.target)
        else none) = [] := by
      rw [List.filterMap_eq_nil_iff]
      intro el hel
      simp [hnone el hel]
    simp [hpairs]
    exact hnone
  exact ⟨h1, by simp [fill_fov_metadata, h1, except_bind_error]⟩

/-- Witness for C10's theorem: a panel holding only `SMA` (mass 89),
filtered for the channel `nope`. -/
theorem empty_channel_filter_valueerror_witness :
    (⟨1, 0, some [⟨89, "SMA"⟩]⟩ : JsonMetadata).panel = some [⟨89, "SMA"⟩]
    ∧ (∀ el ∈ [(⟨89, "SMA"⟩ : Conjugate)], el.target ∉ (["nope"] : List String))
    ∧ (parse_global_panel ⟨1, 0, some [⟨89, "SMA"⟩]⟩ 0 0 (some ["nope"]) =
        .error (.valueError "not enough values to unpack (expected 2, got 0)")
      ∧ fill_fov_metadata ⟨1, 0, some [⟨89, "SMA"⟩]⟩ (.globalWindow 0 0)
          (.bool false) (some ["nope"]) =
        .error (.valueError "not enough values to unpack (expected 2, got 0)")) :=
  ⟨rfl, by simp,
    empty_channel_filter_valueerror ⟨1, 0, some [⟨89, "SMA"⟩]⟩ [⟨89, "SMA"⟩]
      0 0 (.bool false) ["nope"] rfl (by simp)⟩

/-! ## Claim C4 — acquisition locator -/

theorem mem_bin_names (dir : List DirEntry) (n : String) :
    n ∈ extract_delimited_names (list_files dir ".bin") ↔ (n, ".bin") ∈ dir := by
  simp only [extract_delimited_names, List.mem_map, list_files,
    List.mem_filter, decide_eq_true_eq]
  constructor
  · rintro ⟨⟨a1, a2⟩, ⟨hadir, h2⟩, h1⟩
    simp only at h1 h2
    rw [h1, h2] at hadir
    exact hadir
  · intro h
    exact ⟨(n, ".bin"), ⟨h, rfl⟩, rfl⟩

theorem mem_json_files (dir : List DirEntry) (n : String) :
    (n, ".json") ∈ list_files dir ".json" ↔ (n, ".json") ∈ dir := by
  simp [list_files, List.mem_filter]

theorem mem_find_bin_files_result (dir : List DirEntry)
    (include_fovs : Option (List String)) (n : String) :
    n ∈ find_bin_files_result dir include_fovs ↔
      viable_fov dir include_fovs n = true := by
  cases include_fovs with
  | none =>
    show n ∈ ((extract_delimited_names (list_files dir ".bin")).dedup.filter _) ↔ _
    simp only [List.mem_filter, List.mem_dedup, decide_eq_true_eq,
      mem_bin_names, mem_json_files, viable_fov, Bool.and_eq_true]
    tauto
  | some inc =>
    show n ∈ inc.dedup.filter _ ↔ _
    simp only [List.mem_filter, List.mem_dedup, decide_eq_true_eq,
      mem_bin_names, mem_json_files, viable_fov, Bool.and_eq_true]
    tauto

/-- C4: `_find_bin_files` returns exactly the base names for which both a
`.bin` and a `.json` file exist; with an include list the result is the
intersection of that list with the valid acquisitions (include entries not
found are silently dropped); and it raises `FileNotFoundError` (the spec's
`NotFoundError`) exactly when the final result collection is empty, i.e.
when no name is viable. -/
theorem find_bin_files_spec (dir : List DirEntry)
    (include_fovs : Option (List String)) (n : String) :
    (∀ res, find_bin_files dir include_fovs = .ok res →
      (n ∈ res ↔ viable_fov dir include_fovs n = true))
    ∧ ((∃ e, find_bin_files dir include_fovs = .error e) ↔
        ∀ m, viable_fov dir include_fovs m = false)
    ∧ (∀ e, find_bin_files dir include_fovs = .error e →
        e = .fileNotFoundError "No viable bin files were found") := by
  have hempty : (find_bin_files_result dir include_fovs).isEmpty = true ↔
      ∀ m, viable_fov dir include_fovs m = false := by
    rw [List.isEmpty_iff, List.eq_nil_iff_forall_not_mem]
    constructor
    · intro h m
      have := h m
      rw [mem_find_bin_files_result] at this
      exact Bool.not_eq_true _ ▸ eq_false_of_ne_true this
    · intro h m hm
      rw [mem_find_bin_files_result] at hm
      rw [h m] at hm
      exact Bool.false_ne_true hm
  refine ⟨?_, ?_, ?_⟩
  · intro res hres
    unfold find_bin_files at hres
    by_cases hcase : (find_bin_files_result dir include_fovs).isEmpty = true
    · rw [if_pos hcase] at hres
      exact absurd hres (by simp)
    · rw [if_neg hcase] at hres
      have : res = find_bin_files_result dir include_fovs :=
        (Except.ok.injEq _ _ ▸ hres).symm
      rw [this, mem_find_bin_files_result]
  · rw [← hempty]
    constructor
    · rintro ⟨e, he⟩
      unfold find_bin_files at he
      by_cases hcase : (find_bin_files_result dir include_fovs).isEmpty = true
      · exact hcase
      · rw [if_neg hcase] at he
        exact absurd he (by simp)
    · intro hcase
      exact ⟨_, by unfold find_bin_files; rw [if_pos hcase]⟩
  · intro e he
    unfold find_bin_files at he
    by_cases hcase : (find_bin_files_result dir include_fovs).isEmpty = true
    · rw [if_pos hcase] at he
      exact (Except.error.injEq _ _ ▸ he).symm
    · rw [if_neg hcase] at he
      exact absurd he (by simp)

/-- Witness for C4's theorem: the spec's locator example — `fov1..fov3`
paired, `fov4` lacking metadata, `fov5` lacking binary data — restricted to
the include list `["fov1", "nope"]`, checked at the silently-dropped name
`"nope"`. -/
theorem find_bin_files_spec_witness :
    (∀ res, find_bin_files
        [("fov1", ".bin"), ("fov1", ".json"), ("fov2", ".bin"),
          ("fov2", ".json"), ("fov3", ".bin"), ("fov3", ".json"),
          ("fov4", ".bin"), ("fov5", ".json")]
        (some ["fov1", "nope"]) = .ok res →
      (("nope" : String) ∈ res ↔ viable_fov
        [("fov1", ".bin"), ("fov1", ".json"), ("fov2", ".bin"),
          ("fov2", ".json"), ("fov3", ".bin"), ("fov3", ".json"),
          ("fov4", ".bin"), ("fov5", ".json")]
        (some ["fov1", "nope"]) "nope" = true))
    ∧ ((∃ e, find_bin_files
        [("fov1", ".bin"), ("fov1", ".json"), ("fov2", ".bin"),
          ("fov2", ".json"), ("fov3", ".bin"), ("fov3", ".json"),
          ("fov4", ".bin"), ("fov5", ".json")]
        (some ["fov1", "nope"]) = .error e) ↔
        ∀ m, viable_fov
          [("fov1", ".bin"), ("fov1", ".json"), ("fov2", ".bin"),
            ("fov2", ".json"), ("fov3", ".bin"), ("fov3", ".json"),
            ("fov4", ".bin"), ("fov5", ".json")]
          (some ["fov1", "nope"]) m = false)
    ∧ (∀ e, find_bin_files
        [("fov1", ".bin"), ("fov1", ".json"), ("fov2", ".bin"),
          ("fov2", ".json"), ("fov3", ".bin"), ("fov3", ".json"),
          ("fov4", ".bin"), ("fov5", ".json")]
        (some ["fov1", "nope"]) = .error e →
        e = .fileNotFoundError "No viable bin files were found") :=
  find_bin_files_spec
    [("fov1", ".bin"), ("fov1", ".json"), ("fov2", ".bin"), ("fov2", ".json"),
      ("fov3", ".bin"), ("fov3", ".json"), ("fov4", ".bin"), ("fov5", ".json")]
    (some ["fov1", "nope"]) "nope"

/-! ## Claim C7 — zero-sum histogram in the median computation -/

/-- C7 (code bug): on the zero-sum histogram `[0, 0, 0]`,
`get_median_pulse_height` returns bin index 0 instead of failing.  In numpy,
`np.cumsum(h) / h.sum()` is all-`NaN` (`0/0`) and `argmin` over an all-`NaN`
array returns 0; the `ℚ` model (division by zero is 0, making every
`|cumulative - 0.5|` entry equal) reproduces the same index 0.  The spec
requires this degenerate case to fail explicitly rather than return the
misleading index 0. -/
theorem get_median_pulse_height_zero_sum :
    ([0, 0, 0] : List ℚ).sum = 0 ∧ get_median_pulse_height [0, 0, 0] = 0 := by
  refine ⟨by norm_num, ?_⟩
  simp [get_median_pulse_height, cumsum, cumsumAux, argmin, argminAux]

/-! ## Claim C8 — write-out layout -/

theorem append_intensities_ne (s : String) : s ++ "/intensities" ≠ s := by
  intro h
  have hlen := congrArg String.length h
  rw [String.length_append] at hlen
  have h12 : ("/intensities" : String).length = 12 := by decide
  omega

theorem normalize_intensities_list (targets names : List String) :
    normalize_intensities targets (.list names) = .list names := by
  unfold normalize_intensities
  split <;> rfl

theorem c_extract_bin_layers_list (targets names : List String) :
    c_extract_bin_layers (parse_intensities targets (.list names)) =
      if targets.any (fun t => decide (t ∈ names)) then 3 else 1 := by
  rw [c_extract_bin_layers, parse_intensities_list]
  simp [List.any_map, Function.comp]

/-- C8: the write path of `extract_bin_files` (native layer count per intensity
flags, condensation, `_write_out`).  With intensities off, exactly the pulse
tiffs `O/<fov>/<target>.tiff` are written, the only directory created is
`O/<fov>`, and no `intensities` subdirectory appears.  With an intensity
subset list: if some channel is flagged, `replace=True` writes only the (merged)
pulse tiffs with no `intensities` directory, while `replace=False` additionally
creates `O/<fov>/intensities` and writes `<target>_intensity.tiff` exactly for
the flagged channels; if no channel is flagged, no intensity layer exists, so
`replace=False` aborts with `IndexError` (nothing written) and `replace=True`
writes only pulse tiffs.  Consequently the `intensities` subdirectory is
created only when at least one channel requests intensity. -/
theorem extract_write_layout (out_dir fov_name : String)
    (targets names : List String) (img : List (List ℕ)) (replace : Bool)
    (hF : img.length = c_extract_bin_layers (parse_intensities targets (.list names))) :
    (extract_fov_write out_dir fov_name targets (.bool false) replace img =
      .ok ⟨[out_dir ++ "/" ++ fov_name],
        targets.map (fun t => out_dir ++ "/" ++ fov_name ++ "/" ++ t ++ ".tiff")⟩
      ∧ (out_dir ++ "/" ++ fov_name ++ "/intensities") ∉
          ([out_dir ++ "/" ++ fov_name] : List String))
    ∧ (targets.any (fun t => decide (t ∈ names)) = true →
        any_true (.list names) = true →
        extract_fov_write out_dir fov_name targets (.list names) true img =
          .ok ⟨[out_dir ++ "/" ++ fov_name],
            targets.map (fun t => out_dir ++ "/" ++ fov_name ++ "/" ++ t ++ ".tiff")⟩
        ∧ extract_fov_write out_dir fov_name targets (.list names) false img =
          .ok ⟨[out_dir ++ "/" ++ fov_name, out_dir ++ "/" ++ fov_name ++ "/intensities"],
            targets.map (fun t => out_dir ++ "/" ++ fov_name ++ "/" ++ t ++ ".tiff")
              ++ (targets.filter (fun t => decide (t ∈ names))).map
                (fun t => out_dir ++ "/" ++ fov_name ++ "/intensities" ++ "/" ++ t
                  ++ "_intensity.tiff")⟩)
    ∧ (targets.any (fun t => decide (t ∈ names)) = false →
        any_true (.list names) = true →
        extract_fov_write out_dir fov_name targets (.list names) false img =
          .error (.indexError "index 1 is out of bounds for axis 0")
        ∧ extract_fov_write out_dir fov_name targets (.list names) true img =
          .ok ⟨[out_dir ++ "/" ++ fov_name],
            targets.map (fun t => out_dir ++ "/" ++ fov_name ++ "/" ++ t ++ ".tiff")⟩)
    ∧ (∀ w, extract_fov_write out_dir fov_name targets (.list names) replace img =
        .ok w →
        (out_dir ++ "/" ++ fov_name ++ "/intensities") ∈ w.dirsCreated →
        targets.any (fun t => decide (t ∈ names)) = true) := by
  have hA : extract_fov_write out_dir fov_name targets (.bool false) replace img =
      .ok ⟨[out_dir ++ "/" ++ fov_name],
        targets.map (fun t => out_dir ++ "/" ++ fov_name ++ "/" ++ t ++ ".tiff")⟩ := by
    simp [extract_fov_write, normalize_intensities, any_true, condense_img_data,
      write_out, except_bind_ok]
  have hA2 : (out_dir ++ "/" ++ fov_name ++ "/intensities") ∉
      ([out_dir ++ "/" ++ fov_name] : List String) := by
    simp only [List.mem_singleton]
    exact append_intensities_ne _
  have hAnyFalse : ∀ r : Bool, any_true (.list names) = false →
      extract_fov_write out_dir fov_name targets (.list names) r img =
        .ok ⟨[out_dir ++ "/" ++ fov_name],
          targets.map (fun t => out_dir ++ "/" ++ fov_name ++ "/" ++ t ++ ".tiff")⟩ := by
    intro r hany
    simp [extract_fov_write, normalize_intensities_list, condense_img_data, hany,
      write_out, except_bind_ok]
  have hUnflagTrue : targets.any (fun t => decide (t ∈ names)) = false →
      any_true (.list names) = true →
      extract_fov_write out_dir fov_name targets (.list names) true img =
        .ok ⟨[out_dir ++ "/" ++ fov_name],
          targets.map (fun t => out_dir ++ "/" ++ fov_name ++ "/" ++ t ++ ".tiff")⟩ := by
    intro hflag hany
    simp [extract_fov_write, normalize_intensities_list, condense_img_data, hany,
      hflag, write_out, except_bind_ok]
  have hUnflagFalse : targets.any (fun t => decide (t ∈ names)) = false →
      any_true (.list names) = true →
      extract_fov_write out_dir fov_name targets (.list names) false img =
        .error (.indexError "index 1 is out of bounds for axis 0") := by
    intro hflag hany
    rw [c_extract_bin_layers_list, if_neg (by rw [hflag]; exact Bool.false_ne_true)] at hF
    obtain ⟨l0, rfl⟩ : ∃ a, img = [a] := by
      cases img with
      | nil => simp at hF
      | cons a t =>
        cases t with
        | nil => exact ⟨a, rfl⟩
        | cons b t2 => simp at hF
    simp [extract_fov_write, normalize_intensities_list, condense_img_data, hany,
      except_bind_error]
  have hFlag : ∀ hflag : targets.any (fun t => decide (t ∈ names)) = true,
      ∀ hany : any_true (.list names) = true,
      extract_fov_write out_dir fov_name targets (.list names) true img =
        .ok ⟨[out_dir ++ "/" ++ fov_name],
          targets.map (fun t => out_dir ++ "/" ++ fov_name ++ "/" ++ t ++ ".tiff")⟩
      ∧ extract_fov_write out_dir fov_name targets (.list names) false img =
        .ok ⟨[out_dir ++ "/" ++ fov_name,
            out_dir ++ "/" ++ fov_name ++ "/intensities"],
          targets.map (fun t => out_dir ++ "/" ++ fov_name ++ "/" ++ t ++ ".tiff")
            ++ (targets.filter (fun t => decide (t ∈ names))).map
              (fun t => out_dir ++ "/" ++ fov_name ++ "/intensities" ++ "/" ++ t
                ++ "_intensity.tiff")⟩ := by
    intro hflag hany
    rw [c_extract_bin_layers_list, if_pos hflag] at hF
    obtain ⟨l0, l1, rest, rfl⟩ : ∃ a b t, img = a :: b :: t := by
      cases img with
      | nil => simp at hF
      | cons a t =>
        cases t with
        | nil => simp at hF
        | cons b t2 => exact ⟨a, b, t2, rfl⟩
    constructor
    · simp [extract_fov_write, normalize_intensities_list, condense_img_data, hany,
        hflag, write_out, except_bind_ok,
        show ¬ (rest.length + 1 + 1 < 2) by omega]
    · simp [extract_fov_write, normalize_intensities_list, condense_img_data, hany,
        write_out, except_bind_ok]
  refine ⟨⟨hA, hA2⟩, fun hflag hany => hFlag hflag hany,
    fun hflag hany => ⟨hUnflagFalse hflag hany, hUnflagTrue hflag hany⟩, ?_⟩
  intro w hw hdir
  by_cases hflag : targets.any (fun t => decide (t ∈ names)) = true
  · exact hflag
  · exfalso
    replace hflag : targets.any (fun t => decide (t ∈ names)) = false :=
      eq_false_of_ne_true hflag
    by_cases hany : any_true (.list names) = true
    · cases replace with
      | true =>
        rw [hUnflagTrue hflag hany] at hw
        have hwv : w = ⟨[out_dir ++ "/" ++ fov_name],
            targets.map (fun t => out_dir ++ "/" ++ fov_name ++ "/" ++ t ++ ".tiff")⟩ :=
          (Except.ok.injEq _ _ ▸ hw).symm
        rw [hwv] at hdir
        exact hA2 hdir
      | false =>
        rw [hUnflagFalse hflag hany] at hw
        exact absurd hw (by simp)
    · replace hany : any_true (.list names) = false := eq_false_of_ne_true hany
      rw [hAnyFalse replace hany] at hw
      have hwv : w = ⟨[out_dir ++ "/" ++ fov_name],
          targets.map (fun t => out_dir ++ "/" ++ fov_name ++ "/" ++ t ++ ".tiff")⟩ :=
        (Except.ok.injEq _ _ ▸ hw).symm
      rw [hwv] at hdir
      exact hA2 hdir

/-- Witness for C8's theorem: one channel `SMA` flagged for intensity,
a 3-layer native stack, `replace=False`. -/
theorem extract_write_layout_witness :
    ([[1], [2], [3]] : List (List ℕ)).length =
      c_extract_bin_layers (parse_intensities ["SMA"] (.list ["SMA"]))
    ∧ ((extract_fov_write "O" "fov-1-scan-1" ["SMA"] (.bool false) false
          [[1], [2], [3]] =
        .ok ⟨["O" ++ "/" ++ "fov-1-scan-1"],
          (["SMA"] : List String).map
            (fun t => "O" ++ "/" ++ "fov-1-scan-1" ++ "/" ++ t ++ ".tiff")⟩
        ∧ ("O" ++ "/" ++ "fov-1-scan-1" ++ "/intensities") ∉
            (["O" ++ "/" ++ "fov-1-scan-1"] : List String))
      ∧ ((["SMA"] : List String).any (fun t => decide (t ∈ (["SMA"] : List String))) = true →
          any_true (.list ["SMA"]) = true →
          extract_fov_write "O" "fov-1-scan-1" ["SMA"] (.list ["SMA"]) true
            [[1], [2], [3]] =
            .ok ⟨["O" ++ "/" ++ "fov-1-scan-1"],
              (["SMA"] : List String).map
                (fun t => "O" ++ "/" ++ "fov-1-scan-1" ++ "/" ++ t ++ ".tiff")⟩
          ∧ extract_fov_write "O" "fov-1-scan-1" ["SMA"] (.list ["SMA"]) false
              [[1], [2], [3]] =
            .ok ⟨["O" ++ "/" ++ "fov-1-scan-1",
                "O" ++ "/" ++ "fov-1-scan-1" ++ "/intensities"],
              (["SMA"] : List String).map
                (fun t => "O" ++ "/" ++ "fov-1-scan-1" ++ "/" ++ t ++ ".tiff")
                ++ ((["SMA"] : List String).filter
                  (fun t => decide (t ∈ (["SMA"] : List String)))).map
                  (fun t => "O" ++ "/" ++ "fov-1-scan-1" ++ "/intensities" ++ "/"
                    ++ t ++ "_intensity.tiff")⟩)
      ∧ ((["SMA"] : List String).any (fun t => decide (t ∈ (["SMA"] : List String))) = false →
          any_true (.list ["SMA"]) = true →
          extract_fov_write "O" "fov-1-scan-1" ["SMA"] (.list ["SMA"]) false
            [[1], [2], [3]] =
            .error (.indexError "index 1 is out of bounds for axis 0")
          ∧ extract_fov_write "O" "fov-1-scan-1" ["SMA"] (.list ["SMA"]) true
              [[1], [2], [3]] =
            .ok ⟨["O" ++ "/" ++ "fov-1-scan-1"],
              (["SMA"] : List String).map
                (fun t => "O" ++ "/" ++ "fov-1-scan-1" ++ "/" ++ t ++ ".tiff")⟩)
      ∧ (∀ w, extract_fov_write "O" "fov-1-scan-1" ["SMA"] (.list ["SMA"]) false
            [[1], [2], [3]] = .ok w →
          ("O" ++ "/" ++ "fov-1-scan-1" ++ "/intensities") ∈ w.dirsCreated →
          (["SMA"] : List String).any
            (fun t => decide (t ∈ (["SMA"] : List String))) = true)) :=
  ⟨by decide,
    extract_write_layout "O" "fov-1-scan-1" ["SMA"] ["SMA"] [[1], [2], [3]]
      false (by decide)⟩

end MibiBinTools
